import Mathlib

/-!
Verification development for read4me (speak_selection.py): a menu-bar
"select and speak" tool.  The Python source is shallowly embedded below.
OS effects (clipboard, key injection, process spawn/terminate, listener
start/stop) are modelled with explicit environment oracles and event
traces; time is modelled with rationals; sleeps are pure delays with no
modelled effect.
-/

namespace Read4Me

/-- Config constant `DEFAULT_RATE_WPM = 190` from the source. -/
def DEFAULT_RATE_WPM : Nat := 190

/-- Config constant `DEFAULT_VOICE = None` from the source. -/
def DEFAULT_VOICE : Option String := none

/-- Python `str.strip()` with no argument: remove leading and trailing
whitespace. -/
def pyStrip (s : String) : String :=
  ⟨((s.toList.dropWhile Char.isWhitespace).reverse.dropWhile
      Char.isWhitespace).reverse⟩

/-! ## TextSpeaker

`TextSpeaker` holds an optional process handle `_proc` guarded by a lock.
The lock serializes `speak`/`stop`, so calls are modelled as sequential
state transformers.  A process handle records its pid and what `poll()`
reports at the time it is next consulted (`alive = true` means `poll()`
returns `None`, i.e. the process has not been observed to exit). -/

structure Proc where
  pid : Nat
  alive : Bool
deriving DecidableEq, Repr

/-- OS-level events emitted by the speaker.  `exited` is an environment
event: the speech process finishing naturally between calls. -/
inductive Ev where
  | terminate (pid : Nat)
  | spawn (pid : Nat) (cmd : List String)
  | writeStdin (pid : Nat) (text : String)
  | closeStdin (pid : Nat)
  | exited (pid : Nat)
deriving DecidableEq, Repr

structure TextSpeaker where
  proc : Option Proc
  rate_wpm : Nat
  voice : Option String
deriving DecidableEq, Repr

/-- The command list built by `speak`: `["say", "-r", str(rate)]` plus
`["-v", voice]` when a voice is configured. -/
def sayCmd (rate_wpm : Nat) (voice : Option String) : List String :=
  ["say", "-r", toString rate_wpm] ++
    (match voice with
     | some v => ["-v", v]
     | none => [])

/-- `TextSpeaker._stop_locked`: if a handle is held and `poll()` is `None`,
send terminate (errors from `terminate()` are swallowed in the source and
have no further modelled effect); in every case clear the handle. -/
def TextSpeaker.stopLocked (s : TextSpeaker) : TextSpeaker × List Ev :=
  ({ s with proc := none },
    match s.proc with
    | some p => if p.alive then [Ev.terminate p.pid] else []
    | none => [])

/-- `TextSpeaker.speak`: trim the text; if empty, report and return without
touching the process state.  Otherwise, under the lock: stop any previous
process, spawn the `say` process (modelled with a fresh pid supplied by the
environment), write the text to its stdin and close stdin. -/
def TextSpeaker.speak (s : TextSpeaker) (text : String) (newPid : Nat) :
    TextSpeaker × List Ev :=
  let t := pyStrip text
  if t = "" then (s, [])
  else
    let r := s.stopLocked
    ({ r.1 with proc := some ⟨newPid, true⟩ },
      r.2 ++ [Ev.spawn newPid (sayCmd s.rate_wpm s.voice),
              Ev.writeStdin newPid t, Ev.closeStdin newPid])

/-- `TextSpeaker.stop`: take the lock and run `_stop_locked`. -/
def TextSpeaker.stop (s : TextSpeaker) : TextSpeaker × List Ev :=
  s.stopLocked

/-- The process, if any, that is live under the session in a given state. -/
def sessionLive (s : TextSpeaker) : List Nat :=
  match s.proc with
  | some p => if p.alive then [p.pid] else []
  | none => []

/-- The speech process finishing naturally between calls: the handle stays,
but `poll()` now reports an exit status. -/
def markExited (s : TextSpeaker) : TextSpeaker :=
  { s with proc := s.proc.map fun p => ⟨p.pid, false⟩ }

/-- How one OS event changes the set of live speech processes. -/
def liveStep (live : List Nat) : Ev → List Nat
  | Ev.terminate p => live.erase p
  | Ev.spawn p _ => if p ∈ live then live else p :: live
  | Ev.exited p => live.erase p
  | Ev.writeStdin _ _ => live
  | Ev.closeStdin _ => live

/-- Live processes after a sequence of events. -/
def liveAfter (live : List Nat) (evs : List Ev) : List Nat :=
  evs.foldl liveStep live

/-- Largest number of simultaneously live processes at any instant while a
sequence of events plays out (the initial instant included). -/
def maxLive (live : List Nat) : List Ev → Nat
  | [] => live.length
  | e :: es => max live.length (maxLive (liveStep live e) es)

/-- `a` occurs strictly before `b` in the list `l`. -/
def precedes (a b : Ev) (l : List Ev) : Prop :=
  ∃ i j, i < j ∧ l.get? i = some a ∧ l.get? j = some b

/-- State after `speak A; (maybe natural exit); speak B`. -/
def twoSpeakFinal (s0 : TextSpeaker) (A B : String) (pidA pidB : Nat)
    (ex : Bool) : TextSpeaker :=
  let s1 := (s0.speak A pidA).1
  let s1x := if ex then markExited s1 else s1
  (s1x.speak B pidB).1

/-- Full event trace of `speak A; (maybe natural exit); speak B`. -/
def twoSpeakTrace (s0 : TextSpeaker) (A B : String) (pidA pidB : Nat)
    (ex : Bool) : List Ev :=
  let r1 := s0.speak A pidA
  let s1x := if ex then markExited r1.1 else r1.1
  r1.2 ++ (if ex then [Ev.exited pidA] else []) ++ (s1x.speak B pidB).2

/-! ## SelectionReader

`copy_selection_to_clipboard` interacts with the OS clipboard and the
keyboard.  The environment oracle fixes, for one execution: whether each
`pyperclip` call raises `PyperclipException`, whether the synthetic
`Cmd+C` injection raises, and what text (if any) the foreground
application places on the clipboard during each wait.  The clipboard is a
string state threaded through the steps. -/

structure CaptureEnv where
  /-- the initial `pyperclip.paste()` (saving the clipboard) raises -/
  savePasteFails : Bool
  /-- `pyperclip.copy("")` (clearing the clipboard) raises -/
  clearFails : Bool
  /-- a key press/release inside the `_pressed` block raises -/
  injectFails : Bool
  /-- text the foreground app copies during the 300 ms capture delay -/
  appText : Option String
  /-- the first capture `pyperclip.paste()` raises -/
  read1Fails : Bool
  /-- text the foreground app copies during the 200 ms retry delay -/
  appText2 : Option String
  /-- the retry `pyperclip.paste()` raises -/
  read2Fails : Bool
  /-- the restoring `pyperclip.copy(prev_clip)` raises -/
  restoreFails : Bool
deriving DecidableEq, Repr

/-- Outcome of one run: `ret = some t` is a normal return of `t`; `ret =
none` means an exception escaped the method.  `clip` is the clipboard
content when the method is done, `reads` counts the `paste()` calls made
after the copy keystroke. -/
structure CaptureResult where
  ret : Option String
  clip : String
  reads : Nat
deriving DecidableEq, Repr

/-- Python `text or ""` on a string. -/
def pyOr (t : String) : String :=
  if t = "" then "" else t

/-- Clipboard just after the clearing `pyperclip.copy("")` attempt. -/
def clipAfterClear (env : CaptureEnv) (clip0 : String) : String :=
  if env.clearFails then clip0 else ""

/-- Clipboard after the copy keystroke and the capture delay. -/
def clipAfterCopy (env : CaptureEnv) (clip0 : String) : String :=
  match env.appText with
  | some t => t
  | none => clipAfterClear env clip0

/-- Result of the first capture read (`""` when the read raises). -/
def firstReadText (env : CaptureEnv) (clip0 : String) : String :=
  if env.read1Fails then "" else clipAfterCopy env clip0

/-- Clipboard after the extra 200 ms retry delay. -/
def clipAfterRetry (env : CaptureEnv) (clip0 : String) : String :=
  match env.appText2 with
  | some t => t
  | none => clipAfterCopy env clip0

/-- Result of the retry read (`""` when the read raises). -/
def secondReadText (env : CaptureEnv) (clip0 : String) : String :=
  if env.read2Fails then "" else clipAfterRetry env clip0

/-- `SelectionReader.copy_selection_to_clipboard`, step by step:
save the clipboard (a raising read degrades to `""`), clear it
(best-effort), sleep, inject `Cmd+C` (a raising injection is NOT caught:
the scoped `_pressed` block releases the modifier and the exception
escapes), sleep, read; if the text is empty/whitespace, sleep 200 ms and
read once more; restore the saved clipboard (best-effort); return
`text or ""`. -/
def copy_selection_to_clipboard (env : CaptureEnv) (clip0 : String) :
    CaptureResult :=
  let prev_clip := if env.savePasteFails then "" else clip0
  if env.injectFails then
    { ret := none, clip := clipAfterClear env clip0, reads := 0 }
  else if pyStrip (firstReadText env clip0) = "" then
    { ret := some (pyOr (secondReadText env clip0)),
      clip := if env.restoreFails then clipAfterRetry env clip0 else prev_clip,
      reads := 2 }
  else
    { ret := some (pyOr (firstReadText env clip0)),
      clip := if env.restoreFails then clipAfterCopy env clip0 else prev_clip,
      reads := 1 }

/-! ## HotkeyDebouncer

Wall-clock instants (`time.time()`) are modelled as rationals.  The lock
around the read-compare-write sequence makes calls sequential. -/

structure HotkeyDebouncer where
  min_interval : ℚ
  last : ℚ
deriving DecidableEq, Repr

/-- The default `min_interval_sec` argument of the constructor. -/
def defaultMinInterval : ℚ := 1/2

/-- `HotkeyDebouncer.__init__`: store the interval, `_last = 0.0`. -/
def HotkeyDebouncer.init (min_interval_sec : ℚ) : HotkeyDebouncer :=
  { min_interval := min_interval_sec, last := 0 }

/-- `HotkeyDebouncer.ok` called at instant `now`. -/
def HotkeyDebouncer.ok (d : HotkeyDebouncer) (now : ℚ) :
    Bool × HotkeyDebouncer :=
  if now - d.last < d.min_interval then (false, d)
  else (true, { d with last := now })

/-- The timestamps of the accepted calls in a sequence of `ok` calls made
at the given instants. -/
def runOk (d : HotkeyDebouncer) : List ℚ → List ℚ
  | [] => []
  | t :: ts =>
    let r := d.ok t
    if r.1 then t :: runOk r.2 ts else runOk r.2 ts

/-! ## HotkeyService

The service holds an optional `GlobalHotKeys` listener.  Listener handles
are modelled by ids; `start`/`stop` emit listener lifecycle events. -/

inductive HEv where
  | startListener (id : Nat)
  | stopListener (id : Nat)
deriving DecidableEq, Repr

structure HotkeyService where
  listener : Option Nat
deriving DecidableEq, Repr

/-- `HotkeyService.start`: a no-op when a listener exists; otherwise build
and start a new listener (fresh id supplied by the environment). -/
def HotkeyService.start (s : HotkeyService) (newId : Nat) :
    HotkeyService × List HEv :=
  match s.listener with
  | some _ => (s, [])
  | none => ({ listener := some newId }, [HEv.startListener newId])

/-- `HotkeyService.stop`: stop and discard the listener when one exists;
otherwise a no-op. -/
def HotkeyService.stop (s : HotkeyService) : HotkeyService × List HEv :=
  match s.listener with
  | some id => ({ listener := none }, [HEv.stopListener id])
  | none => (s, [])

/-- How one listener event changes the set of live listeners. -/
def liveLStep (live : List Nat) : HEv → List Nat
  | HEv.startListener i => if i ∈ live then live else i :: live
  | HEv.stopListener i => live.erase i

/-- Live listeners after a sequence of listener events. -/
def liveL (live : List Nat) (evs : List HEv) : List Nat :=
  evs.foldl liveLStep live

/-- The listeners live under a service state. -/
def gateLive (s : HotkeyService) : List Nat :=
  match s.listener with
  | some i => [i]
  | none => []

/-- The two callbacks bound in the `GlobalHotKeys` mapping. -/
inductive Handler where
  | wrappedSpeak
  | onStop
deriving DecidableEq, Repr

/-- The hotkey mapping passed to `GlobalHotKeys` by `start`. -/
def hotkeyBindings : List (String × Handler) :=
  [("<cmd>+<shift>+s", Handler.wrappedSpeak),
   ("<cmd>+<shift>+x", Handler.onStop)]

/-- The chord-to-callback lookup the listener performs. -/
def lookupBinding (chord : String) : Option Handler :=
  (hotkeyBindings.find? fun p => p.1 = chord).map Prod.snd

/-- The pipeline action a callback ends up invoking. -/
inductive Action where
  | speakAction
  | stopAction
deriving DecidableEq, Repr

/-- Running a bound callback at instant `now`: `_wrapped_speak` consults
the debouncer and invokes the speak pipeline only when accepted; the stop
binding is `self._on_stop` itself, which never touches the debouncer. -/
def runHandler (h : Handler) (d : HotkeyDebouncer) (now : ℚ) :
    HotkeyDebouncer × Option Action :=
  match h with
  | Handler.wrappedSpeak =>
    let r := d.ok now
    (r.2, if r.1 then some Action.speakAction else none)
  | Handler.onStop => (d, some Action.stopAction)

/-! ## Read4MeMenuApp._speak_selection -/

/-- Outcome of the speak-hotkey callback body: the speaker state after it,
the OS events, whether the "Nothing selected" notification was shown, and
whether an exception escaped (only possible out of the capture). -/
structure SpeakSelResult where
  speaker : TextSpeaker
  evs : List Ev
  notified : Bool
  raised : Bool
deriving DecidableEq, Repr

/-- `Read4MeMenuApp._speak_selection`: capture the selection; if the text
is empty/whitespace, show a notification and return; otherwise speak it. -/
def speakSelection (env : CaptureEnv) (clip0 : String) (s : TextSpeaker)
    (newPid : Nat) : SpeakSelResult :=
  match (copy_selection_to_clipboard env clip0).ret with
  | none => { speaker := s, evs := [], notified := false, raised := true }
  | some text =>
    if pyStrip text = "" then
      { speaker := s, evs := [], notified := true, raised := false }
    else
      let r := s.speak text newPid
      { speaker := r.1, evs := r.2, notified := false, raised := false }

/-! ## Supporting lemmas -/

/-- At every prefix of an event sequence, the number of live processes is
bounded by `maxLive`, so a bound on `maxLive` bounds the live count at
every instant. -/
theorem liveAfter_take_le_maxLive (evs : List Ev) :
    ∀ (live : List Nat) (n : Nat),
      (liveAfter live (evs.take n)).length ≤ maxLive live evs := by
  induction evs with
  | nil =>
    intro live n
    simp [liveAfter, maxLive]
  | cons e es ih =>
    intro live n
    cases n with
    | zero =>
      simp [liveAfter, maxLive]
    | succ n =>
      have h := ih (liveStep live e) n
      simp only [List.take_succ_cons, liveAfter, List.foldl_cons, maxLive] at h ⊢
      exact le_trans h (le_max_right _ _)

/-- Every timestamp accepted by a run of `ok` calls is at least the
debouncer's current deadline `last + min_interval`. -/
theorem runOk_mem_ge (ts : List ℚ) :
    ∀ (d : HotkeyDebouncer), 0 ≤ d.min_interval →
      ∀ t ∈ runOk d ts, d.last + d.min_interval ≤ t := by
  induction ts with
  | nil =>
    intro d _ t ht
    simp [runOk] at ht
  | cons t0 ts ih =>
    intro d hm t ht
    by_cases h : t0 - d.last < d.min_interval
    · rw [runOk] at ht
      simp [HotkeyDebouncer.ok, h] at ht
      exact ih d hm t ht
    · rw [runOk] at ht
      simp [HotkeyDebouncer.ok, h] at ht
      rcases ht with rfl | ht
      · linarith
      · have h2 := ih { d with last := t0 } hm t ht
        simp only at h2
        have h0 : d.last + d.min_interval ≤ t0 := by linarith
        linarith

/-- Accepted timestamps are pairwise at least `min_interval` apart. -/
theorem runOk_pairwise (ts : List ℚ) :
    ∀ (d : HotkeyDebouncer), 0 ≤ d.min_interval →
      (runOk d ts).Pairwise (fun a b => d.min_interval ≤ b - a) := by
  induction ts with
  | nil =>
    intro d _
    simp [runOk]
  | cons t0 ts ih =>
    intro d hm
    by_cases h : t0 - d.last < d.min_interval
    · rw [runOk]
      simp only [HotkeyDebouncer.ok, if_pos h]
      simpa using ih d hm
    · rw [runOk]
      simp only [HotkeyDebouncer.ok, if_neg h, if_true]
      refine List.pairwise_cons.mpr ⟨?_, ih { d with last := t0 } hm⟩
      intro b hb
      have h2 := runOk_mem_ge ts { d with last := t0 } hm b hb
      simp only at h2
      linarith

/-! ## Claims -/

/-- C4: `HotkeyDebouncer.ok` returns true and records `now` as the
last-accepted time iff the elapsed time since the last acceptance is at
least the configured minimum interval (default 0.5 s); otherwise it
returns false without mutating state; consequently no two accepted calls
in a sequence are timestamped less than the minimum interval apart. -/
theorem debouncer_contract (d : HotkeyDebouncer) (now : ℚ) (ts : List ℚ)
    (hm : 0 ≤ d.min_interval) :
    ((d.ok now).1 = true ↔ d.min_interval ≤ now - d.last) ∧
    ((d.ok now).1 = true →
      (d.ok now).2 = { min_interval := d.min_interval, last := now }) ∧
    ((d.ok now).1 = false → (d.ok now).2 = d) ∧
    (runOk d ts).Pairwise (fun a b => d.min_interval ≤ b - a) ∧
    defaultMinInterval = 1/2 := by
  refine ⟨?_, ?_, ?_, runOk_pairwise ts d hm, rfl⟩ <;>
    by_cases h : now - d.last < d.min_interval <;>
      simp [HotkeyDebouncer.ok, h] <;> linarith

/-- Witness for C4 at `d = init 0.5`, `now = 1`, `ts = [0, 1, 2]`. -/
theorem debouncer_contract_witness :
    0 ≤ (HotkeyDebouncer.init (1/2)).min_interval ∧
    ((((HotkeyDebouncer.init (1/2)).ok 1).1 = true ↔
        (HotkeyDebouncer.init (1/2)).min_interval ≤
          1 - (HotkeyDebouncer.init (1/2)).last) ∧
      (((HotkeyDebouncer.init (1/2)).ok 1).1 = true →
        ((HotkeyDebouncer.init (1/2)).ok 1).2 =
          { min_interval := (HotkeyDebouncer.init (1/2)).min_interval,
            last := 1 }) ∧
      (((HotkeyDebouncer.init (1/2)).ok 1).1 = false →
        ((HotkeyDebouncer.init (1/2)).ok 1).2 = HotkeyDebouncer.init (1/2)) ∧
      (runOk (HotkeyDebouncer.init (1/2)) [0, 1, 2]).Pairwise
        (fun a b => (HotkeyDebouncer.init (1/2)).min_interval ≤ b - a) ∧
      defaultMinInterval = 1/2) :=
  ⟨by norm_num [HotkeyDebouncer.init],
   debouncer_contract (HotkeyDebouncer.init (1/2)) 1 [0, 1, 2]
     (by norm_num [HotkeyDebouncer.init])⟩

/-- C10: a fresh `HotkeyDebouncer` has its last-accepted timestamp
initialized to 0, so the first `ok()` call at any instant `t ≥ m` returns
true: the first hotkey press after startup is never suppressed. -/
theorem debouncer_first_call (m t : ℚ) (hm : m ≤ t) :
    (HotkeyDebouncer.init m).last = 0 ∧
    ((HotkeyDebouncer.init m).ok t).1 = true := by
  refine ⟨rfl, ?_⟩
  have h : ¬ (t - (HotkeyDebouncer.init m).last <
      (HotkeyDebouncer.init m).min_interval) := by
    simp only [HotkeyDebouncer.init]
    linarith
  simp [HotkeyDebouncer.ok, h]

/-- Witness for C10 at `m = 0.5`, `t = 3`. -/
theorem debouncer_first_call_witness :
    (1:ℚ)/2 ≤ 3 ∧
    ((HotkeyDebouncer.init (1/2)).last = 0 ∧
      ((HotkeyDebouncer.init (1/2)).ok 3).1 = true) :=
  ⟨by norm_num, debouncer_first_call (1/2) 3 (by norm_num)⟩

/-- C7: from every service state, calling `start` twice leaves exactly one
live listener and the second call is a no-op that emits nothing and does
not replace the listener; calling `stop` twice leaves no listener and the
second call is a no-op that emits nothing. -/
theorem gate_idempotence (s : HotkeyService) (id1 id2 : Nat) :
    ((s.start id1).1.start id2).1 = (s.start id1).1 ∧
    ((s.start id1).1.start id2).2 = [] ∧
    liveL (gateLive s) ((s.start id1).2 ++ ((s.start id1).1.start id2).2) =
      gateLive (s.start id1).1 ∧
    (gateLive (s.start id1).1).length = 1 ∧
    ((s.stop).1.stop).1 = (s.stop).1 ∧
    ((s.stop).1.stop).2 = [] ∧
    liveL (gateLive s) ((s.stop).2 ++ ((s.stop).1.stop).2) = [] ∧
    (s.stop).1.listener = none := by
  cases h : s.listener with
  | none =>
    simp [HotkeyService.start, HotkeyService.stop, h, liveL, liveLStep,
      gateLive]
  | some j =>
    simp [HotkeyService.start, HotkeyService.stop, h, liveL, liveLStep,
      gateLive, List.erase_cons_head]

/-- C8: the `GlobalHotKeys` map binds the speak chord to `_wrapped_speak`
and the stop chord to `on_stop`; the speak callback produces the speak
action exactly when the debouncer accepts (a rejected debounce invokes
nothing and leaves the debouncer unchanged), while the stop callback
always produces the stop action without consulting the debouncer. -/
theorem trigger_routing (d : HotkeyDebouncer) (now : ℚ) :
    lookupBinding "<cmd>+<shift>+s" = some Handler.wrappedSpeak ∧
    lookupBinding "<cmd>+<shift>+x" = some Handler.onStop ∧
    ((runHandler Handler.wrappedSpeak d now).2 =
      if d.min_interval ≤ now - d.last then some Action.speakAction
      else none) ∧
    ((runHandler Handler.wrappedSpeak d now).1 =
      if d.min_interval ≤ now - d.last then { d with last := now } else d) ∧
    runHandler Handler.onStop d now = (d, some Action.stopAction) := by
  refine ⟨rfl, rfl, ?_, ?_, rfl⟩ <;>
    by_cases h : now - d.last < d.min_interval
  · simp [runHandler, HotkeyDebouncer.ok, if_pos h, if_neg (not_le.mpr h)]
  · simp [runHandler, HotkeyDebouncer.ok, if_neg h, if_pos (not_lt.mp h)]
  · simp [runHandler, HotkeyDebouncer.ok, if_pos h, if_neg (not_le.mpr h)]
  · simp [runHandler, HotkeyDebouncer.ok, if_neg h, if_pos (not_lt.mp h)]

/-- An execution in which the initial clipboard-saving `paste()` raises
`PyperclipException` while every later OS call succeeds and the foreground
app copies "world". -/
def envSaveFails : CaptureEnv :=
  { savePasteFails := true, clearFails := false, injectFails := false,
    appText := some "world", read1Fails := false, appText2 := none,
    read2Fails := false, restoreFails := false }

/-- Counterexample to C1 as stated: with prior clipboard "hello", if the
initial save read raises (degraded to saving `""`), the method completes
normally and the restoring write succeeds, yet the final clipboard is `""`,
not "hello". -/
theorem clipboard_invariance_ce :
    (copy_selection_to_clipboard envSaveFails "hello").ret = some "world" ∧
    (copy_selection_to_clipboard envSaveFails "hello").clip = "" ∧
    envSaveFails.restoreFails = false ∧
    "hello" ≠ "" := by
  refine ⟨?_, ?_, rfl, by decide⟩ <;> rfl

/-- C1 (amended): if the initial clipboard save read succeeds, the key
injection does not raise, and the restoring write succeeds, then after
`copy_selection_to_clipboard` the clipboard again equals the prior content
C — regardless of the clear attempt, of both capture reads, and of
whatever the foreground app copied in between. -/
theorem clipboard_invariance (env : CaptureEnv) (clip0 : String)
    (h1 : env.savePasteFails = false) (h2 : env.injectFails = false)
    (h3 : env.restoreFails = false) :
    (copy_selection_to_clipboard env clip0).clip = clip0 := by
  simp only [copy_selection_to_clipboard, h1, h2, h3, Bool.false_eq_true,
    if_false]
  split <;> rfl

/-- Witness for C1 (amended): an all-succeeding run over prior clipboard
"hello" during which the app copies "world". -/
theorem clipboard_invariance_witness :
    ({ savePasteFails := false, clearFails := false, injectFails := false,
       appText := some "world", read1Fails := false, appText2 := none,
       read2Fails := false, restoreFails := false } :
        CaptureEnv).savePasteFails = false ∧
    (copy_selection_to_clipboard
      { savePasteFails := false, clearFails := false, injectFails := false,
        appText := some "world", read1Fails := false, appText2 := none,
        read2Fails := false, restoreFails := false } "hello").clip =
      "hello" :=
  ⟨rfl, clipboard_invariance _ "hello" rfl rfl rfl⟩

/-- An execution in which the synthetic `Cmd+C` injection raises while
every clipboard call would have succeeded. -/
def envInjectFails : CaptureEnv :=
  { savePasteFails := false, clearFails := false, injectFails := true,
    appText := none, read1Fails := false, appText2 := none,
    read2Fails := false, restoreFails := false }

/-- Counterexample to C3 as stated: when the key injection raises, the
exception escapes `copy_selection_to_clipboard` (`ret = none`), so the
method does not always return a string; moreover the escape happens before
the restore, leaving the cleared clipboard behind. -/
theorem capture_never_fails_ce :
    (copy_selection_to_clipboard envInjectFails "hello").ret = none ∧
    (copy_selection_to_clipboard envInjectFails "hello").clip = "" := by
  constructor <;> rfl

/-- C3 (amended): clipboard read and write errors are all caught inside
`copy_selection_to_clipboard` and degraded to an empty/unchanged result,
so whenever the synthetic key injection does not raise, the method returns
a string; a key-injection error, however, is not caught (the scoped
`_pressed` block only guarantees the modifier is released) and propagates
to the caller. -/
theorem capture_never_fails (env : CaptureEnv) (clip0 : String)
    (h : env.injectFails = false) :
    ((copy_selection_to_clipboard env clip0).ret).isSome = true := by
  simp only [copy_selection_to_clipboard, h, Bool.false_eq_true, if_false]
  split <;> rfl

/-- Witness for C3 (amended): every clipboard call raising, injection
succeeding — the method still returns (the empty string). -/
theorem capture_never_fails_witness :
    ({ savePasteFails := true, clearFails := true, injectFails := false,
       appText := none, read1Fails := true, appText2 := none,
       read2Fails := true, restoreFails := true } :
        CaptureEnv).injectFails = false ∧
    ((copy_selection_to_clipboard
      { savePasteFails := true, clearFails := true, injectFails := false,
        appText := none, read1Fails := true, appText2 := none,
        read2Fails := true, restoreFails := true } "x").ret).isSome =
      true :=
  ⟨rfl, capture_never_fails _ "x" rfl⟩

/-- C9: the clipboard is never read more than twice after the copy
keystroke; when the keystroke is injected, there is a second (retry) read
exactly when the first read yields an empty or whitespace-only string, and
at least one read always happens. -/
theorem single_retry (env : CaptureEnv) (clip0 : String) :
    (copy_selection_to_clipboard env clip0).reads ≤ 2 ∧
    (env.injectFails = false →
      ((copy_selection_to_clipboard env clip0).reads = 2 ↔
        pyStrip (firstReadText env clip0) = "") ∧
      1 ≤ (copy_selection_to_clipboard env clip0).reads) := by
  cases hi : env.injectFails with
  | true => simp [copy_selection_to_clipboard, hi]
  | false =>
    by_cases hf : pyStrip (firstReadText env clip0) = "" <;>
      simp [copy_selection_to_clipboard, hi, hf]

/-- Witness for C9: a run whose first read comes back empty, so exactly
one retry read happens. -/
theorem single_retry_witness :
    (copy_selection_to_clipboard envSaveFails "hello").reads ≤ 2 ∧
    ((copy_selection_to_clipboard envInjectFails "hello").reads ≤ 2 ∧
      ((copy_selection_to_clipboard
          { envInjectFails with injectFails := false } "hello").reads = 2 ↔
        pyStrip (firstReadText { envInjectFails with injectFails := false }
            "hello") = "")) :=
  ⟨(single_retry envSaveFails "hello").1,
   (single_retry envInjectFails "hello").1,
   ((single_retry { envInjectFails with injectFails := false } "hello").2
      rfl).1⟩

/-- C5: when the captured text is empty or whitespace-only, the capture
callback shows the notification and does not invoke `speak` (no events,
speaker untouched); and `speak` itself trims its argument and is a no-op
on whitespace-only text. -/
theorem empty_selection_noop (env : CaptureEnv) (clip0 : String)
    (s : TextSpeaker) (newPid : Nat) (t : String) (ht : pyStrip t = "") :
    ((copy_selection_to_clipboard env clip0).ret = some t →
      speakSelection env clip0 s newPid =
        { speaker := s, evs := [], notified := true, raised := false }) ∧
    s.speak t newPid = (s, []) := by
  constructor
  · intro h
    simp [speakSelection, h, ht]
  · simp [TextSpeaker.speak, ht]

/-- Witness for C5: an all-succeeding run in which the app never copies
anything, so the captured text is `""` and nothing is spoken. -/
theorem empty_selection_noop_witness :
    pyStrip "" = "" ∧
    ((copy_selection_to_clipboard
        { envInjectFails with injectFails := false } "" ).ret = some "" →
      speakSelection { envInjectFails with injectFails := false } ""
          { proc := none, rate_wpm := 190, voice := none } 1 =
        { speaker := { proc := none, rate_wpm := 190, voice := none },
          evs := [], notified := true, raised := false }) ∧
    TextSpeaker.speak { proc := none, rate_wpm := 190, voice := none } "" 1 =
      ({ proc := none, rate_wpm := 190, voice := none }, []) :=
  ⟨rfl,
   (empty_selection_noop { envInjectFails with injectFails := false } ""
      { proc := none, rate_wpm := 190, voice := none } 1 "" rfl).1,
   (empty_selection_noop { envInjectFails with injectFails := false } ""
      { proc := none, rate_wpm := 190, voice := none } 1 "" rfl).2⟩

/-- A speaker whose handle holds a process that has already exited
naturally (its `poll()` no longer returns `None`). -/
def staleSpeaker : TextSpeaker :=
  { proc := some ⟨7, false⟩, rate_wpm := 190, voice := none }

/-- Counterexample to C6 as stated: with no live process but the handle
still holding an exited process, `stop()` mutates the state — it clears
the handle — so the session state is not left unchanged. -/
theorem stop_idempotent_ce :
    sessionLive staleSpeaker = [] ∧
    staleSpeaker.stop.1 ≠ staleSpeaker := by
  constructor
  · rfl
  · intro h
    have := congrArg TextSpeaker.proc h
    simp [TextSpeaker.stop, TextSpeaker.stopLocked, staleSpeaker] at this

/-- C6 (amended): whenever no speech process is live, `stop()` emits no OS
event (in the source it also cannot raise: the only fallible call,
`terminate()`, is wrapped in a swallowing handler and is not even reached),
it always leaves the handle cleared, it leaves the state fully unchanged
when the handle was already absent, and a second `stop()` is an exact
no-op — so `stop` is safe to call any number of times. -/
theorem stop_idempotent (s : TextSpeaker) (h : sessionLive s = []) :
    s.stop.2 = [] ∧
    s.stop.1.proc = none ∧
    (s.proc = none → s.stop.1 = s) ∧
    s.stop.1.stop = (s.stop.1, []) := by
  cases s with
  | mk proc rate voice =>
    cases proc with
    | none => simp [TextSpeaker.stop, TextSpeaker.stopLocked]
    | some p =>
      have hp : p.alive = false := by
        by_contra hc
        rw [Bool.not_eq_false] at hc
        simp [sessionLive, hc] at h
      simp [TextSpeaker.stop, TextSpeaker.stopLocked, hp]

/-- Witness for C6 (amended) at a speaker with no handle at all. -/
theorem stop_idempotent_witness :
    sessionLive { proc := none, rate_wpm := 190, voice := none } = [] ∧
    (TextSpeaker.stop { proc := none, rate_wpm := 190, voice := none }).2 =
        [] ∧
    (TextSpeaker.stop
        { proc := none, rate_wpm := 190, voice := none }).1.proc = none ∧
    (({ proc := none, rate_wpm := 190, voice := none } :
        TextSpeaker).proc = none →
      (TextSpeaker.stop { proc := none, rate_wpm := 190, voice := none }).1 =
        { proc := none, rate_wpm := 190, voice := none }) ∧
    (TextSpeaker.stop
        { proc := none, rate_wpm := 190, voice := none }).1.stop =
      ((TextSpeaker.stop
          { proc := none, rate_wpm := 190, voice := none }).1, []) :=
  ⟨rfl, stop_idempotent { proc := none, rate_wpm := 190, voice := none } rfl⟩

/-- C2: for `speak A` then `speak B` (both non-empty), run under the
session's lock from any session state, and whether or not A's process
exits naturally in between: at no instant is more than one speech process
live under the session (`maxLive` bounds every instant of the trace, by
`liveAfter_take_le_maxLive`); A's process is terminated — or observed
already exited — before B's process is spawned; and afterwards the handle
holds exactly B's live process. -/
theorem single_flight (s0 : TextSpeaker) (A B : String) (pidA pidB : Nat)
    (ex : Bool) (hA : pyStrip A ≠ "") (hB : pyStrip B ≠ "") :
    maxLive (sessionLive s0) (twoSpeakTrace s0 A B pidA pidB ex) ≤ 1 ∧
    precedes (if ex then Ev.exited pidA else Ev.terminate pidA)
      (Ev.spawn pidB (sayCmd s0.rate_wpm s0.voice))
      (twoSpeakTrace s0 A B pidA pidB ex) ∧
    (twoSpeakFinal s0 A B pidA pidB ex).proc = some ⟨pidB, true⟩ := by
  obtain ⟨p0, rate, voice⟩ := s0
  have hfin : (twoSpeakFinal ⟨p0, rate, voice⟩ A B pidA pidB ex).proc =
      some ⟨pidB, true⟩ := by
    cases ex <;> cases p0 <;>
      simp [twoSpeakFinal, TextSpeaker.speak, TextSpeaker.stopLocked,
        markExited, hA, hB]
  refine ⟨?_, ?_, hfin⟩ <;>
    cases ex <;>
      rcases p0 with _ | ⟨q, _ | _⟩ <;>
        simp [twoSpeakTrace, TextSpeaker.speak, TextSpeaker.stopLocked,
          markExited, hA, hB, sessionLive, maxLive, liveStep,
          List.erase_cons_head, precedes] <;>
    first
      | omega
      | exact ⟨3, 4, by omega, rfl, rfl⟩
      | exact ⟨4, 5, by omega, rfl, rfl⟩

/-- Witness for C2: `speak "a"` then `speak "b"` on a fresh speaker, with
no natural exit in between. -/
theorem single_flight_witness :
    pyStrip "a" ≠ "" ∧ pyStrip "b" ≠ "" ∧
    (maxLive (sessionLive { proc := none, rate_wpm := 190, voice := none })
        (twoSpeakTrace { proc := none, rate_wpm := 190, voice := none }
          "a" "b" 1 2 false) ≤ 1 ∧
      precedes (if false then Ev.exited 1 else Ev.terminate 1)
        (Ev.spawn 2 (sayCmd 190 none))
        (twoSpeakTrace { proc := none, rate_wpm := 190, voice := none }
          "a" "b" 1 2 false) ∧
      (twoSpeakFinal { proc := none, rate_wpm := 190, voice := none }
          "a" "b" 1 2 false).proc = some ⟨2, true⟩) :=
  ⟨by decide, by decide,
   single_flight { proc := none, rate_wpm := 190, voice := none }
     "a" "b" 1 2 false (by decide) (by decide)⟩

end Read4Me
